import Mathlib

/-!
Verification of the webhook message-validation engine (`src/models.rs`).

The data model and the checking functions below are a shallow embedding of
the Rust source.  Rust `Result<(), String>` becomes `Except String Unit`;
the mutable `MessageContext` is threaded explicitly, so every checking
function returns a pair of its result and the updated context.  Rust
`str::len()` is the UTF-8 byte length, embedded as `rustLen`.  Definitions
whose doc comment starts with `Modelled from the spec:` embed the canonical
second revision of the validation module described by the specification,
which is not among the available sources.
-/

set_option autoImplicit false

namespace Webhook

/-- Outcome of one compatibility check (Rust `Result<(), String>`). -/
abbrev CheckResult := Except String Unit

instance : DecidableEq CheckResult := fun a b =>
  match a, b with
  | .ok (), .ok () => isTrue rfl
  | .error e, .error f =>
    if h : e = f then isTrue (by rw [h]) else isFalse (by intro hc; cases hc; exact h rfl)
  | .ok _, .error _ => isFalse (by intro hc; cases hc)
  | .error _, .ok _ => isFalse (by intro hc; cases hc)

/-- Rust `str::len()`: the length of the UTF-8 encoding in bytes. -/
def rustLen (s : String) : Nat :=
  s.utf8ByteSize

/-- `ButtonStyles` from the source (serialization codes 1-5 omitted). -/
inductive ButtonStyles where
  | Primary
  | Secondary
  | Success
  | Danger
  | Link
deriving DecidableEq, Repr

/-- `PartialEmoji` from the source. -/
structure PartialEmoji where
  id : String
  name : String
  animated : Option Bool
deriving DecidableEq, Repr

/-- The serializable `Button` struct from the source.  The constant serde
tag `component_type = 2` is never read by validation and is omitted. -/
structure Button where
  style : Option ButtonStyles
  label : Option String
  emoji : Option PartialEmoji
  custom_id : Option String
  url : Option String
  disabled : Option Bool
deriving DecidableEq, Repr

/-- `SelectOption` from the source. -/
structure SelectOption where
  label : Option String
  value : Option String
  description : Option String
  emoji : Option PartialEmoji
  default : Option Bool
deriving DecidableEq, Repr

/-- `SelectMenu` from the source.  `min_values`/`max_values` are Rust `u8`,
embedded as `Nat`; the constant serde tag `component_type = 3` is omitted. -/
structure SelectMenu where
  custom_id : Option String
  options : List SelectOption
  placeholder : Option String
  min_values : Option Nat
  max_values : Option Nat
  disabled : Option Bool
deriving DecidableEq, Repr

/-- `NonCompositeComponent` from the source: a child of an action row. -/
inductive NonCompositeComponent where
  | button (b : Button)
  | selectMenu (m : SelectMenu)
deriving DecidableEq, Repr

/-- `ActionRow` from the source (constant serde tag `component_type = 1`
omitted). -/
structure ActionRow where
  components : List NonCompositeComponent
deriving DecidableEq, Repr

/-- `EmbedField` from the source. -/
structure EmbedField where
  name : String
  value : String
  inline : Bool
deriving DecidableEq, Repr

/-- `EmbedFooter` from the source. -/
structure EmbedFooter where
  text : String
  icon_url : Option String
deriving DecidableEq, Repr

/-- `EmbedUrlSource` from the source (also `EmbedImage`, `EmbedThumbnail`,
`EmbedVideo`). -/
structure EmbedUrlSource where
  url : String
deriving DecidableEq, Repr

/-- `EmbedProvider` from the source. -/
structure EmbedProvider where
  name : String
  url : String
deriving DecidableEq, Repr

/-- `EmbedAuthor` from the source. -/
structure EmbedAuthor where
  name : String
  url : Option String
  icon_url : Option String
deriving DecidableEq, Repr

/-- `Embed` from the source (the constant `embed_type = "rich"` omitted). -/
structure Embed where
  title : Option String
  description : Option String
  url : Option String
  timestamp : Option String
  color : Option String
  footer : Option EmbedFooter
  image : Option EmbedUrlSource
  video : Option EmbedUrlSource
  thumbnail : Option EmbedUrlSource
  provider : Option EmbedProvider
  author : Option EmbedAuthor
  fields : List EmbedField
deriving DecidableEq, Repr

/-- `AllowedMentions` from the source (only carried by `Message`, never
validated). -/
structure AllowedMentions where
  parse : Option (List String)
  roles : Option (List String)
  users : Option (List String)
  replied_user : Bool
deriving DecidableEq, Repr

/-- `Message` from the source. -/
structure Message where
  content : Option String
  username : Option String
  avatar_url : Option String
  tts : Bool
  embeds : List Embed
  allow_mentions : Option AllowedMentions
  action_rows : List ActionRow
deriving DecidableEq, Repr

/-- `MessageContext` from the source; the `HashSet<String>` of custom ids is
embedded as a duplicate-free list used only through membership. -/
structure MessageContext where
  custom_ids : List String
  button_count_in_action_row : Nat
  select_menu_count_in_action_row : Nat
deriving DecidableEq, Repr

/-- Named limits from the source. -/
def Message.max_action_row_count : Nat := 5

def Message.label_max_len : Nat := 80

def Message.custom_id_max_len : Nat := 100

def ActionRow.max_button_count : Nat := 5

def ActionRow.max_select_menu_count : Nat := 1

def SelectMenu.max_option_count : Nat := 25

def SelectMenu.placeholder_max_len : Nat := 150

def SelectMenu.minimum_of_min_values : Nat := 0

def SelectMenu.maximum_of_min_values : Nat := 25

def SelectMenu.maximum_of_max_values : Nat := 25

def SelectOption.label_max_len : Nat := 100

def SelectOption.value_max_len : Nat := 100

def SelectOption.description_max_len : Nat := 100

/-- `MessageContext::new`. -/
def MessageContext.new : MessageContext :=
  { custom_ids := [], button_count_in_action_row := 0,
    select_menu_count_in_action_row := 0 }

/-- The error text produced by `MessageContext::register_custom_id` for a
repeated id. -/
def dupMsg (id : String) : String :=
  "Attempt to use the same custom ID (" ++ id ++ ") twice!"

/-- `MessageContext::register_custom_id`: inserts the id, failing if it was
already present. -/
def MessageContext.register_custom_id (ctx : MessageContext) (id : String) :
    CheckResult × MessageContext :=
  if id ∈ ctx.custom_ids then
    (.error (dupMsg id), ctx)
  else
    (.ok (), { ctx with custom_ids := id :: ctx.custom_ids })

/-- `MessageContext::register_button`. -/
def MessageContext.register_button (ctx : MessageContext) (id : String) :
    CheckResult × MessageContext :=
  match ctx.register_custom_id id with
  | (.error e, c) => (.error e, c)
  | (.ok _, c) =>
    if ActionRow.max_button_count ≤ c.button_count_in_action_row then
      (.error ("Button count for action row exceeded maximum (" ++
        toString ActionRow.max_button_count ++ ")"), c)
    else
      let c2 : MessageContext :=
        { c with button_count_in_action_row := c.button_count_in_action_row + 1 }
      if 0 < c2.select_menu_count_in_action_row then
        (.error "An Action Row containing buttons cannot also contain a select menu", c2)
      else
        (.ok (), c2)

/-- `MessageContext::register_select_menu`. -/
def MessageContext.register_select_menu (ctx : MessageContext) (id : String) :
    CheckResult × MessageContext :=
  match ctx.register_custom_id id with
  | (.error e, c) => (.error e, c)
  | (.ok _, c) =>
    if ActionRow.max_select_menu_count ≤ c.select_menu_count_in_action_row then
      (.error ("Select menu count for action row exceeded maximum (" ++
        toString ActionRow.max_select_menu_count ++ ")"), c)
    else
      let c2 : MessageContext :=
        { c with select_menu_count_in_action_row := c.select_menu_count_in_action_row + 1 }
      if 0 < c2.button_count_in_action_row then
        (.error "An Action Row containing a select menu cannot also contain buttons", c2)
      else
        (.ok (), c2)

/-- `MessageContext::register_action_row`.  The source assigns
`button_count_in_action_row = 0` twice and never touches
`select_menu_count_in_action_row`; the two identical assignments collapse to
one here. -/
def MessageContext.register_action_row (ctx : MessageContext) : MessageContext :=
  { ctx with button_count_in_action_row := 0 }

/-- The source's `bool_to_result` helper. -/
def bool_to_result (p : Prop) [Decidable p] (err : String) : CheckResult :=
  if p then .ok () else .error err

/-- Rust `Result::and`: keep the first error, otherwise the second result.
Both operands are always evaluated in the source, so context updates of the
second computation happen even when the first failed. -/
def resAnd (a b : CheckResult) : CheckResult :=
  match a with
  | .error e => .error e
  | .ok _ => b

/-- `label.is_some() && label.unwrap().len() > n`. -/
def optLenGT (o : Option String) (n : Nat) : Bool :=
  match o with
  | some s => decide (n < rustLen s)
  | none => false

/-- `opt.map_or(false, |v| high < v || v < low)`. -/
def optValOutside (o : Option Nat) (low high : Nat) : Bool :=
  match o with
  | some v => decide (high < v) || decide (v < low)
  | none => false

/-- `opt.map_or(false, |v| high < v)`. -/
def optValGT (o : Option Nat) (high : Nat) : Bool :=
  match o with
  | some v => decide (high < v)
  | none => false

/-- `prepare_length_check` from the source. -/
def prepare_length_check (specs : List (Option String × Nat × String)) :
    List (String × Nat × String) :=
  specs.filterMap (fun spec => spec.1.map (fun v => (v, spec.2.1, spec.2.2)))

/-- The loop body of `limit_max_length`. -/
def limit_max_length_run : List (String × Nat × String) → CheckResult
  | [] => .ok ()
  | (value, maxLen, errName) :: rest =>
    if maxLen < rustLen value then
      .error (errName ++ " exceeded maximum length " ++ toString maxLen)
    else
      limit_max_length_run rest

/-- `limit_max_length` from the source. -/
def limit_max_length (specs : List (Option String × Nat × String)) : CheckResult :=
  limit_max_length_run (prepare_length_check specs)

/-- `Button::check_compatibility` from the source.  Note that
`register_button` runs (and updates the context) even when the custom-id
length check fails, because `Result::and` evaluates its argument eagerly. -/
def Button.check_compatibility (b : Button) (ctx : MessageContext) :
    CheckResult × MessageContext :=
  if optLenGT b.label Message.label_max_len then
    (.error ("Label length exceeds " ++ toString Message.label_max_len ++ " characters"), ctx)
  else
    match b.style with
    | none => (.error "Button style must be set!", ctx)
    | some .Link =>
      if b.url = none then
        (.error "Url of a Link button must be set!", ctx)
      else
        (.ok (), ctx)
    | some .Primary | some .Secondary | some .Success | some .Danger =>
      match b.custom_id with
      | some id =>
        match ctx.register_button id with
        | (r, c) =>
          (resAnd
            (bool_to_result (rustLen id ≤ Message.custom_id_max_len)
              ("Custom ID length exceeds " ++ toString Message.custom_id_max_len ++ " characters"))
            r, c)
      | none => (.error "Custom ID of a NonLink button must be set!", ctx)

/-- `SelectOption::check_compatibility` from the source.  The context is
taken and returned untouched, as in the source (`_context`).  The second
length-check entry re-checks `label` (against `value_max_len`) instead of
`value`, exactly as the source does. -/
def SelectOption.check_compatibility (o : SelectOption) (ctx : MessageContext) :
    CheckResult × MessageContext :=
  (if o.label = none then
    .error "Label of a menu option must be set!"
  else if o.value = none then
    .error "Value of a menu option must be set!"
  else
    limit_max_length [
      (o.label, SelectOption.label_max_len, "Label"),
      (o.label, SelectOption.value_max_len, "Value"),
      (o.description, SelectOption.description_max_len, "Description")], ctx)

/-- The `Result`-accumulating fold from the source
(`iter().fold(Ok(()), |acc, x| acc.and(x.check_compatibility(context)))`):
every element is checked, the context is threaded through all of them, and
the first error is kept. -/
def foldChecks {α : Type}
    (f : α → MessageContext → CheckResult × MessageContext) :
    List α → CheckResult × MessageContext → CheckResult × MessageContext
  | [], acc => acc
  | x :: xs, acc =>
    match f x acc.2 with
    | (r, c) => foldChecks f xs (resAnd acc.1 r, c)

/-- `SelectMenu::check_compatibility` from the source. -/
def SelectMenu.check_compatibility (m : SelectMenu) (ctx : MessageContext) :
    CheckResult × MessageContext :=
  match m.custom_id with
  | none => (.error "Custom ID of a Select menu must be set!", ctx)
  | some id =>
    match ctx.register_select_menu id with
    | (.error e, c) => (.error e, c)
    | (.ok _, c) =>
      if SelectMenu.max_option_count < m.options.length then
        (.error ("Option count exceeded maximum " ++ toString SelectMenu.max_option_count), c)
      else if optValOutside m.min_values SelectMenu.minimum_of_min_values
          SelectMenu.maximum_of_min_values then
        (.error ("Min values does not fall into the [" ++
          toString SelectMenu.minimum_of_min_values ++ ", " ++
          toString SelectMenu.maximum_of_min_values ++ "] interval"), c)
      else if optValGT m.max_values SelectMenu.maximum_of_max_values then
        (.error ("Max values exceeded maximum " ++ toString SelectMenu.maximum_of_max_values), c)
      else
        match foldChecks SelectOption.check_compatibility m.options (.ok (), c) with
        | (optRes, c2) =>
          (resAnd
            (limit_max_length [
              (m.custom_id, Message.custom_id_max_len, "Custom ID"),
              (m.placeholder, SelectMenu.placeholder_max_len, "Placeholder")])
            optRes, c2)

/-- `NonCompositeComponent::check_compatibility` from the source. -/
def NonCompositeComponent.check_compatibility (comp : NonCompositeComponent)
    (ctx : MessageContext) : CheckResult × MessageContext :=
  match comp with
  | .button b => b.check_compatibility ctx
  | .selectMenu m => m.check_compatibility ctx

/-- `ActionRow::check_compatibility` from the source: registers the row,
then folds over the children.  An empty row is not rejected. -/
def ActionRow.check_compatibility (row : ActionRow) (ctx : MessageContext) :
    CheckResult × MessageContext :=
  foldChecks NonCompositeComponent.check_compatibility row.components
    (.ok (), ctx.register_action_row)

/-- `Message::check_compatibility` from the source: the action-row count
check, then the fold over rows.  Embeds are never examined. -/
def Message.check_compatibility (msg : Message) (ctx : MessageContext) :
    CheckResult × MessageContext :=
  if Message.max_action_row_count < msg.action_rows.length then
    (.error ("Action row count exceeded " ++ toString Message.max_action_row_count ++
      " (maximum)"), ctx)
  else
    foldChecks ActionRow.check_compatibility msg.action_rows (.ok (), ctx)

/-- `Embed::new`. -/
def Embed.new : Embed :=
  { title := none, description := none, url := none, timestamp := none,
    color := none, footer := none, image := none, video := none,
    thumbnail := none, provider := none, author := none, fields := [] }

/-- `Embed::field` from the source: appends a field, except that with
exactly 25 fields already present the source raises a panic instead of
returning, embedded as `none`. -/
def Embed.field (e : Embed) (name value : String) (inline : Bool) : Option Embed :=
  if e.fields.length = 25 then
    none
  else
    some { e with fields := e.fields ++ [{ name := name, value := value, inline := inline }] }

/-!
### The canonical second revision, modelled from the specification

The specification (§2) designates a later, second revision of the
validation module as canonical; that revision is not among the available
sources, so its parts that differ from the first revision are modelled from
the specification's words (§3, §4.2, §4.3): the `Interval` type, the
custom-id length check inside `register_custom_id`, the empty-row
rejection, the min/max-values ordering check, and the fold over embeds.
Error values use the specification's error taxonomy names (§7).
-/

/-- Modelled from the spec: `Interval` (§3, §4.1), the closed-range bound
type of the canonical revision. -/
structure Interval where
  min_allowed : Nat
  max_allowed : Nat
deriving DecidableEq, Repr

/-- Modelled from the spec: `Interval::contains` (§4.1). -/
def Interval.contains (i : Interval) (v : Nat) : Bool :=
  decide (i.min_allowed ≤ v) && decide (v ≤ i.max_allowed)

/-- Modelled from the spec: the custom-id length interval, 0..100 characters
(§3, the spec's length checks count characters of the decoded text, §4.3). -/
def customIdInterval : Interval := { min_allowed := 0, max_allowed := 100 }

/-- Modelled from the spec: rows per message ∈ [0,5] (§3). -/
def rowCountInterval : Interval := { min_allowed := 0, max_allowed := 5 }

/-- Modelled from the spec: buttons per row ∈ [0,5] (§3, §4.2). -/
def buttonCountInterval : Interval := { min_allowed := 0, max_allowed := 5 }

/-- Modelled from the spec: select menus per row ∈ [0,1] (§3, §4.2). -/
def selectMenuCountInterval : Interval := { min_allowed := 0, max_allowed := 1 }

/-- Modelled from the spec: button label length ∈ [0,80] (§3). -/
def labelInterval : Interval := { min_allowed := 0, max_allowed := 80 }

/-- Modelled from the spec: options per menu ∈ [1,25] (§3). -/
def optionCountInterval : Interval := { min_allowed := 1, max_allowed := 25 }

/-- Modelled from the spec: placeholder length ∈ [0,150] (§3). -/
def placeholderInterval : Interval := { min_allowed := 0, max_allowed := 150 }

/-- Modelled from the spec: `min_values` ∈ [0,25] (§3). -/
def minValuesInterval : Interval := { min_allowed := 0, max_allowed := 25 }

/-- Modelled from the spec: `max_values` ∈ [1,25] (§3). -/
def maxValuesInterval : Interval := { min_allowed := 1, max_allowed := 25 }

/-- Modelled from the spec: option label length ∈ [1,100] (§3). -/
def optionLabelInterval : Interval := { min_allowed := 1, max_allowed := 100 }

/-- Modelled from the spec: option value length ∈ [1,100] (§3). -/
def optionValueInterval : Interval := { min_allowed := 1, max_allowed := 100 }

/-- Modelled from the spec: option description length ∈ [0,100] (§3). -/
def optionDescriptionInterval : Interval := { min_allowed := 0, max_allowed := 100 }

/-- Modelled from the spec: the canonical revision's
`MessageContext::register_custom_id` (§4.2): fails with the DuplicateCustomId
error when the id is already present, fails with LengthExceeded when the
id's character count is outside the custom-id interval, and inserts the id
into the set on success. -/
def MessageContext.register_custom_id_canonical (ctx : MessageContext) (id : String) :
    CheckResult × MessageContext :=
  if id ∈ ctx.custom_ids then
    (.error "DuplicateCustomId", ctx)
  else if customIdInterval.contains id.length then
    (.ok (), { ctx with custom_ids := id :: ctx.custom_ids })
  else
    (.error "LengthExceeded", ctx)

/-- Modelled from the spec: the canonical `register_button` (§4.2): register
the id, increment the row's button counter, check it against the per-row
interval, then fail on a button/menu mix. -/
def MessageContext.register_button_canonical (ctx : MessageContext) (id : String) :
    CheckResult × MessageContext :=
  match ctx.register_custom_id_canonical id with
  | (.error e, c) => (.error e, c)
  | (.ok _, c) =>
    let c2 : MessageContext :=
      { c with button_count_in_action_row := c.button_count_in_action_row + 1 }
    if buttonCountInterval.contains c2.button_count_in_action_row then
      if 0 < c2.select_menu_count_in_action_row then
        (.error "ConflictingComponentKinds", c2)
      else
        (.ok (), c2)
    else
      (.error "CountOutOfRange", c2)

/-- Modelled from the spec: the canonical `register_select_menu` (§4.2),
symmetric to `register_button_canonical`. -/
def MessageContext.register_select_menu_canonical (ctx : MessageContext) (id : String) :
    CheckResult × MessageContext :=
  match ctx.register_custom_id_canonical id with
  | (.error e, c) => (.error e, c)
  | (.ok _, c) =>
    let c2 : MessageContext :=
      { c with select_menu_count_in_action_row := c.select_menu_count_in_action_row + 1 }
    if selectMenuCountInterval.contains c2.select_menu_count_in_action_row then
      if 0 < c2.button_count_in_action_row then
        (.error "ConflictingComponentKinds", c2)
      else
        (.ok (), c2)
    else
      (.error "CountOutOfRange", c2)

/-- Modelled from the spec: the canonical `register_action_row` as the §4.2
operation describes it, resetting both per-row counters (the spec records an
open question that the reference resets only the button counter; the first
revision's behaviour is `MessageContext.register_action_row` above). -/
def MessageContext.register_action_row_canonical (ctx : MessageContext) : MessageContext :=
  { ctx with button_count_in_action_row := 0, select_menu_count_in_action_row := 0 }

/-- `some l` with `l`'s character count outside `i`. -/
def optOutsideInterval (o : Option String) (i : Interval) : Bool :=
  match o with
  | some s => !(i.contains s.length)
  | none => false

/-- Modelled from the spec: the canonical `Button::check_compatibility`
(§4.3): label length, then style, then url (Link) or custom id and
registration (Regular); the custom-id length check lives inside the
registration. -/
def Button.check_compatibility_canonical (b : Button) (ctx : MessageContext) :
    CheckResult × MessageContext :=
  if optOutsideInterval b.label labelInterval then
    (.error "LengthExceeded", ctx)
  else
    match b.style with
    | none => (.error "MissingRequiredField: style", ctx)
    | some .Link =>
      if b.url = none then
        (.error "MissingRequiredField: url", ctx)
      else
        (.ok (), ctx)
    | some .Primary | some .Secondary | some .Success | some .Danger =>
      match b.custom_id with
      | some id => ctx.register_button_canonical id
      | none => (.error "MissingRequiredField: custom id", ctx)

/-- Modelled from the spec: the canonical `SelectOption::check_compatibility`
(§4.3): label presence and length, value presence and length, description
length. -/
def SelectOption.check_compatibility_canonical (o : SelectOption) (ctx : MessageContext) :
    CheckResult × MessageContext :=
  (match o.label with
  | none => .error "MissingRequiredField: label"
  | some l =>
    if optionLabelInterval.contains l.length then
      match o.value with
      | none => .error "MissingRequiredField: value"
      | some v =>
        if optionValueInterval.contains v.length then
          if optOutsideInterval o.description optionDescriptionInterval then
            .error "LengthExceeded"
          else
            .ok ()
        else
          .error "LengthOutOfRange"
    else
      .error "LengthOutOfRange", ctx)

/-- Modelled from the spec: the canonical `SelectMenu::check_compatibility`
(§4.3): custom id presence, registration, option count, `min_values`
interval, `max_values` interval, the min ≤ max ordering (InvertedRange),
placeholder length, then the fold over options. -/
def SelectMenu.check_compatibility_canonical (m : SelectMenu) (ctx : MessageContext) :
    CheckResult × MessageContext :=
  match m.custom_id with
  | none => (.error "MissingRequiredField: custom id", ctx)
  | some id =>
    match ctx.register_select_menu_canonical id with
    | (.error e, c) => (.error e, c)
    | (.ok _, c) =>
      if !(optionCountInterval.contains m.options.length) then
        (.error "CountOutOfRange", c)
      else if (match m.min_values with
          | some v => !(minValuesInterval.contains v)
          | none => false) then
        (.error "MinValuesOutOfRange", c)
      else if (match m.max_values with
          | some v => !(maxValuesInterval.contains v)
          | none => false) then
        (.error "MaxValuesOutOfRange", c)
      else if (match m.min_values, m.max_values with
          | some a, some b => decide (b < a)
          | _, _ => false) then
        (.error "InvertedRange", c)
      else if optOutsideInterval m.placeholder placeholderInterval then
        (.error "LengthExceeded", c)
      else
        foldChecks SelectOption.check_compatibility_canonical m.options (.ok (), c)

/-- Modelled from the spec: the canonical dispatch over the closed component
set (§4.3). -/
def NonCompositeComponent.check_compatibility_canonical (comp : NonCompositeComponent)
    (ctx : MessageContext) : CheckResult × MessageContext :=
  match comp with
  | .button b => b.check_compatibility_canonical ctx
  | .selectMenu m => m.check_compatibility_canonical ctx

/-- Modelled from the spec: the canonical `ActionRow::check_compatibility`
(§4.3): register the row unconditionally, fail with EmptyRow on zero
components, otherwise fold over the children. -/
def ActionRow.check_compatibility_canonical (row : ActionRow) (ctx : MessageContext) :
    CheckResult × MessageContext :=
  let c := ctx.register_action_row_canonical
  if row.components.isEmpty then
    (.error "EmptyRow", c)
  else
    foldChecks NonCompositeComponent.check_compatibility_canonical row.components (.ok (), c)

/-- Modelled from the spec: the canonical `Embed` compatibility check is an
unimplemented stub in the reference (§4.3, §9) — it accepts every embed. -/
def Embed.check_compatibility_canonical (_e : Embed) (ctx : MessageContext) :
    CheckResult × MessageContext :=
  (.ok (), ctx)

/-- Modelled from the spec: the canonical `Message::check_compatibility`
(§4.3): the row-count check, then the fold over all action rows, then the
fold over all embeds; the first error overall is reported. -/
def Message.check_compatibility_canonical (msg : Message) (ctx : MessageContext) :
    CheckResult × MessageContext :=
  if !(rowCountInterval.contains msg.action_rows.length) then
    (.error "CountOutOfRange", ctx)
  else
    match foldChecks ActionRow.check_compatibility_canonical msg.action_rows (.ok (), ctx) with
    | (r, c) =>
      match foldChecks Embed.check_compatibility_canonical msg.embeds (.ok (), c) with
      | (r2, c2) => (resAnd r r2, c2)

/-!
### Well-formed components

Decidable well-formedness predicates used as hypotheses of the theorems:
a component is well formed when every check local to it (everything except
custom-id uniqueness and the per-row counters) passes under the first
revision's checker.
-/

/-- A regular (non-link) button whose local checks pass: label within 80
bytes when present, a non-Link style, and a custom id of at most 100 bytes. -/
def wfRegularButtonB (b : Button) : Bool :=
  (match b.label with
    | some l => decide (rustLen l ≤ Message.label_max_len)
    | none => true) &&
  (match b.style with
    | some .Link => false
    | some _ => true
    | none => false) &&
  (match b.custom_id with
    | some id => decide (rustLen id ≤ Message.custom_id_max_len)
    | none => false)

/-- A select option whose checks pass: label present and within 100 bytes,
value present, description within 100 bytes when present.  (The first
revision never checks the value's length.) -/
def wfSelectOptionB (o : SelectOption) : Bool :=
  (match o.label with
    | some l => decide (rustLen l ≤ SelectOption.label_max_len)
    | none => false) &&
  o.value.isSome &&
  (match o.description with
    | some d => decide (rustLen d ≤ SelectOption.description_max_len)
    | none => true)

/-- A select menu whose local checks pass: custom id present and within 100
bytes, at most 25 options, `min_values`/`max_values` within their bounds
when present, placeholder within 150 bytes when present, and well-formed
options. -/
def wfSelectMenuB (m : SelectMenu) : Bool :=
  (match m.custom_id with
    | some id => decide (rustLen id ≤ Message.custom_id_max_len)
    | none => false) &&
  decide (m.options.length ≤ SelectMenu.max_option_count) &&
  !(optValOutside m.min_values SelectMenu.minimum_of_min_values
      SelectMenu.maximum_of_min_values) &&
  !(optValGT m.max_values SelectMenu.maximum_of_max_values) &&
  (match m.placeholder with
    | some p => decide (rustLen p ≤ SelectMenu.placeholder_max_len)
    | none => true) &&
  m.options.all wfSelectOptionB

/-- An interactive (custom-id carrying) component whose local checks pass. -/
def wfInteractiveB : NonCompositeComponent → Bool
  | .button b => wfRegularButtonB b
  | .selectMenu m => wfSelectMenuB m

/-- The custom id carried by a component. -/
def compIdOf : NonCompositeComponent → Option String
  | .button b => b.custom_id
  | .selectMenu m => m.custom_id

/-- The custom ids of a list of buttons. -/
def buttonIds (bs : List Button) : List String :=
  bs.filterMap Button.custom_id

/-- The custom ids of rows of buttons. -/
def rowsIds : List (List Button) → List String
  | [] => []
  | bs :: rest => buttonIds bs ++ rowsIds rest

/-- A message that carries only the given action rows. -/
def mkComponentsMessage (rows : List ActionRow) : Message :=
  { content := none, username := none, avatar_url := none, tts := false,
    embeds := [], allow_mentions := none, action_rows := rows }

/-!
### Concrete instances used by witnesses and counterexamples
-/

/-- A minimal regular button with the given custom id. -/
def mkRegularButton (id : String) : Button :=
  { style := some .Primary, label := none, emoji := none, custom_id := some id,
    url := none, disabled := none }

/-- A minimal select menu with the given custom id and no options. -/
def mkSelectMenu (id : String) : SelectMenu :=
  { custom_id := some id, options := [], placeholder := none, min_values := none,
    max_values := none, disabled := none }

/-- Five rows of five regular buttons with pairwise distinct one-byte ids. -/
def fiveByFiveRows : List (List Button) :=
  [["a", "b", "c", "d", "e"].map mkRegularButton,
   ["f", "g", "h", "i", "j"].map mkRegularButton,
   ["k", "l", "m", "n", "o"].map mkRegularButton,
   ["p", "q", "r", "s", "t"].map mkRegularButton,
   ["u", "v", "w", "x", "y"].map mkRegularButton]

/-- A 101-character (and 101-byte) string. -/
def longValue : String :=
  String.mk (List.replicate 101 'a')

/-- An embed already holding 25 fields. -/
def embedWith25Fields : Embed :=
  { Embed.new with fields := List.replicate 25 { name := "n", value := "v", inline := false } }

/-- An embed violating the embed-level constraints of the specification:
26 fields, all with empty names and values. -/
def badEmbed : Embed :=
  { Embed.new with fields := List.replicate 26 { name := "", value := "", inline := false } }

/-- A valid link button. -/
def linkButtonU : Button :=
  { style := some .Link, label := none, emoji := none, custom_id := none,
    url := some "u", disabled := none }

/-- A message whose single action row passes validation but whose embed
violates the embed-level constraints. -/
def msgWithBadEmbed : Message :=
  { content := none, username := none, avatar_url := none, tts := false,
    embeds := [badEmbed], allow_mentions := none,
    action_rows := [{ components := [.button linkButtonU] }] }

/-- A select menu with min_values = 3 > max_values = 2, both inside their
own intervals. -/
def invertedMenu : SelectMenu :=
  { custom_id := some "m",
    options := [{ label := some "l", value := some "v", description := none,
                  emoji := none, default := none }],
    placeholder := none, min_values := some 3, max_values := some 2,
    disabled := none }

/-!
### General lemmas about the error-accumulating fold
-/

theorem resAnd_ok_right (r : CheckResult) : resAnd r (.ok ()) = r := by
  cases r with
  | ok u => cases u; rfl
  | error e => rfl

theorem foldChecks_error {α : Type}
    (f : α → MessageContext → CheckResult × MessageContext)
    (xs : List α) (e : String) (c : MessageContext) :
    (foldChecks f xs (.error e, c)).1 = .error e := by
  induction xs generalizing c with
  | nil => rfl
  | cons x xs ih =>
    rcases h : f x c with ⟨r, c2⟩
    simpa [foldChecks, h, resAnd] using ih c2

theorem foldChecks_cons_ok {α : Type}
    {f : α → MessageContext → CheckResult × MessageContext}
    {x : α} {ctx c : MessageContext} (xs : List α)
    (h : f x ctx = (.ok (), c)) :
    foldChecks f (x :: xs) (.ok (), ctx) = foldChecks f xs (.ok (), c) := by
  simp [foldChecks, h, resAnd]

theorem foldChecks_cons_err {α : Type}
    {f : α → MessageContext → CheckResult × MessageContext}
    {x : α} {ctx c : MessageContext} {e : String} (xs : List α)
    (h : f x ctx = (.error e, c)) :
    (foldChecks f (x :: xs) (.ok (), ctx)).1 = .error e := by
  simp only [foldChecks, h, resAnd]
  exact foldChecks_error f xs e c

theorem foldChecks_stub_embeds (es : List Embed) (acc : CheckResult × MessageContext) :
    foldChecks Embed.check_compatibility_canonical es acc = acc := by
  induction es generalizing acc with
  | nil => rfl
  | cons e es ih =>
    simp [foldChecks, Embed.check_compatibility_canonical, resAnd_ok_right, ih]

/-!
### Unfolding helpers for the first revision's checker
-/

theorem register_action_row_mk (ids : List String) (bc smc : Nat) :
    MessageContext.register_action_row ⟨ids, bc, smc⟩ = ⟨ids, 0, smc⟩ := rfl

theorem actionRow_check_mk (cs : List NonCompositeComponent) (ctx : MessageContext) :
    ActionRow.check_compatibility ⟨cs⟩ ctx =
      foldChecks NonCompositeComponent.check_compatibility cs
        (.ok (), ctx.register_action_row) := rfl

theorem message_check_rows (rows : List ActionRow) (ctx : MessageContext)
    (h : rows.length ≤ 5) :
    Message.check_compatibility (mkComponentsMessage rows) ctx =
      foldChecks ActionRow.check_compatibility rows (.ok (), ctx) := by
  unfold Message.check_compatibility mkComponentsMessage
  rw [if_neg]
  simp only [Message.max_action_row_count, not_lt]
  exact h

theorem foldChecks_singleton {α : Type}
    (f : α → MessageContext → CheckResult × MessageContext)
    (x : α) (ctx : MessageContext) :
    foldChecks f [x] (.ok (), ctx) = f x ctx := by
  rcases h : f x ctx with ⟨r, c⟩
  simp [foldChecks, h, resAnd]

theorem register_action_row_ids (ctx : MessageContext) :
    (ctx.register_action_row).custom_ids = ctx.custom_ids := rfl

/-!
### Behaviour of the first revision's checker on well-formed components
-/

theorem check_button_ok {b : Button} {ids : List String} {bc : Nat} {id : String}
    (hwf : wfRegularButtonB b = true) (hid : b.custom_id = some id)
    (hmem : id ∉ ids) (hcnt : bc < 5) :
    b.check_compatibility ⟨ids, bc, 0⟩ = (.ok (), ⟨id :: ids, bc + 1, 0⟩) := by
  unfold wfRegularButtonB at hwf
  rw [hid] at hwf
  simp only [Bool.and_eq_true] at hwf
  obtain ⟨⟨hlab, hsty⟩, hlen⟩ := hwf
  simp only [decide_eq_true_eq, Message.custom_id_max_len] at hlen
  have h1 : optLenGT b.label Message.label_max_len = false := by
    unfold optLenGT
    cases hl : b.label with
    | none => rfl
    | some l =>
      rw [hl] at hlab
      simp only [decide_eq_true_eq] at hlab
      simp only [decide_eq_false_iff_not, not_lt]
      exact hlab
  rcases hs : b.style with _ | s
  · rw [hs] at hsty; simp at hsty
  · cases s
    case Link => rw [hs] at hsty; simp at hsty
    all_goals
      simp [Button.check_compatibility, h1, hs, hid, MessageContext.register_button,
        MessageContext.register_custom_id, hmem, bool_to_result, resAnd, hlen,
        Nat.not_le.mpr hcnt, Message.custom_id_max_len, ActionRow.max_button_count]

theorem check_button_dup {b : Button} {ctx : MessageContext} {id : String}
    (hwf : wfRegularButtonB b = true) (hid : b.custom_id = some id)
    (hmem : id ∈ ctx.custom_ids) :
    b.check_compatibility ctx = (.error (dupMsg id), ctx) := by
  unfold wfRegularButtonB at hwf
  rw [hid] at hwf
  simp only [Bool.and_eq_true] at hwf
  obtain ⟨⟨hlab, hsty⟩, hlen⟩ := hwf
  simp only [decide_eq_true_eq, Message.custom_id_max_len] at hlen
  have h1 : optLenGT b.label Message.label_max_len = false := by
    unfold optLenGT
    cases hl : b.label with
    | none => rfl
    | some l =>
      rw [hl] at hlab
      simp only [decide_eq_true_eq] at hlab
      simp only [decide_eq_false_iff_not, not_lt]
      exact hlab
  rcases hs : b.style with _ | s
  · rw [hs] at hsty; simp at hsty
  · cases s
    case Link => rw [hs] at hsty; simp at hsty
    all_goals
      simp [Button.check_compatibility, h1, hs, hid, MessageContext.register_button,
        MessageContext.register_custom_id, hmem, bool_to_result, resAnd, hlen,
        Message.custom_id_max_len]

theorem check_select_option_ok {o : SelectOption} (ctx : MessageContext)
    (hwf : wfSelectOptionB o = true) :
    o.check_compatibility ctx = (.ok (), ctx) := by
  unfold wfSelectOptionB at hwf
  simp only [Bool.and_eq_true] at hwf
  obtain ⟨⟨hlab, hval⟩, hdesc⟩ := hwf
  rcases hl : o.label with _ | l
  · rw [hl] at hlab; simp at hlab
  · rcases hv : o.value with _ | v
    · rw [hv] at hval; simp at hval
    · rw [hl] at hlab
      simp only [decide_eq_true_eq, SelectOption.label_max_len] at hlab
      rcases hd : o.description with _ | d
      · simp [SelectOption.check_compatibility, hl, hv, hd, limit_max_length,
          prepare_length_check, limit_max_length_run, Nat.not_lt.mpr hlab,
          SelectOption.label_max_len, SelectOption.value_max_len]
      · rw [hd] at hdesc
        simp only [decide_eq_true_eq, SelectOption.description_max_len] at hdesc
        simp [SelectOption.check_compatibility, hl, hv, hd, limit_max_length,
          prepare_length_check, limit_max_length_run, Nat.not_lt.mpr hlab,
          Nat.not_lt.mpr hdesc, SelectOption.label_max_len,
          SelectOption.value_max_len, SelectOption.description_max_len]

theorem fold_options_ok (os : List SelectOption) (c : MessageContext)
    (h : ∀ o ∈ os, wfSelectOptionB o = true) :
    foldChecks SelectOption.check_compatibility os (.ok (), c) = (.ok (), c) := by
  induction os with
  | nil => rfl
  | cons o os ih =>
    rw [foldChecks_cons_ok os (check_select_option_ok c (h o (by simp)))]
    exact ih (fun o2 ho2 => h o2 (by simp [ho2]))

theorem check_select_menu_ok {m : SelectMenu} {ids : List String} {id : String}
    (hwf : wfSelectMenuB m = true) (hid : m.custom_id = some id)
    (hmem : id ∉ ids) :
    m.check_compatibility ⟨ids, 0, 0⟩ = (.ok (), ⟨id :: ids, 0, 1⟩) := by
  unfold wfSelectMenuB at hwf
  rw [hid] at hwf
  simp only [Bool.and_eq_true] at hwf
  obtain ⟨⟨⟨⟨⟨hidlen, hopt⟩, hmin⟩, hmax⟩, hph⟩, hall⟩ := hwf
  simp only [decide_eq_true_eq] at hidlen hopt
  simp only [Message.custom_id_max_len] at hidlen
  simp only [Bool.not_eq_true'] at hmin hmax
  have hfold : foldChecks SelectOption.check_compatibility m.options
      (.ok (), (⟨id :: ids, 0, 1⟩ : MessageContext)) =
      (.ok (), (⟨id :: ids, 0, 1⟩ : MessageContext)) := by
    refine fold_options_ok _ _ (fun o ho => ?_)
    exact List.all_eq_true.mp hall o ho
  have hlim : limit_max_length [
      (some id, Message.custom_id_max_len, "Custom ID"),
      (m.placeholder, SelectMenu.placeholder_max_len, "Placeholder")] = .ok () := by
    rcases hp : m.placeholder with _ | p
    · simp [limit_max_length, prepare_length_check, limit_max_length_run, hp,
        Nat.not_lt.mpr hidlen, Message.custom_id_max_len]
    · rw [hp] at hph
      simp only [decide_eq_true_eq, SelectMenu.placeholder_max_len] at hph
      simp [limit_max_length, prepare_length_check, limit_max_length_run, hp,
        Nat.not_lt.mpr hidlen, Nat.not_lt.mpr hph, Message.custom_id_max_len,
        SelectMenu.placeholder_max_len]
  have hreg : MessageContext.register_select_menu ⟨ids, 0, 0⟩ id =
      (.ok (), ⟨id :: ids, 0, 1⟩) := by
    simp [MessageContext.register_select_menu, MessageContext.register_custom_id,
      hmem, ActionRow.max_select_menu_count]
  unfold SelectMenu.check_compatibility
  simp only [hid, hreg]
  rw [if_neg (Nat.not_lt.mpr hopt)]
  rw [if_neg (by simp [hmin])]
  rw [if_neg (by simp [hmax])]
  rw [hfold]
  simp [hlim, resAnd]

theorem check_select_menu_dup {m : SelectMenu} {ctx : MessageContext} {id : String}
    (hid : m.custom_id = some id) (hmem : id ∈ ctx.custom_ids) :
    m.check_compatibility ctx = (.error (dupMsg id), ctx) := by
  simp [SelectMenu.check_compatibility, hid, MessageContext.register_select_menu,
    MessageContext.register_custom_id, hmem]

@[simp] theorem rowsIds_nil : rowsIds [] = [] := rfl

@[simp] theorem rowsIds_cons (bs : List Button) (rest : List (List Button)) :
    rowsIds (bs :: rest) = buttonIds bs ++ rowsIds rest := rfl

theorem fold_buttons_ok (bs : List Button) (ids : List String) (bc : Nat)
    (hwf : ∀ b ∈ bs, wfRegularButtonB b = true)
    (hnd : (buttonIds bs).Nodup)
    (hdisj : ∀ i ∈ buttonIds bs, i ∉ ids)
    (hcnt : bc + bs.length ≤ 5) :
    ∃ ids2, foldChecks NonCompositeComponent.check_compatibility
        (bs.map NonCompositeComponent.button) (.ok (), ⟨ids, bc, 0⟩)
      = (.ok (), ⟨ids2, bc + bs.length, 0⟩) ∧
      ∀ i, i ∈ ids2 ↔ i ∈ buttonIds bs ∨ i ∈ ids := by
  induction bs generalizing ids bc with
  | nil =>
    exact ⟨ids, by simp [foldChecks], by simp [buttonIds]⟩
  | cons b rest ih =>
    have hwb := hwf b (by simp)
    rcases hcid : b.custom_id with _ | id
    · exfalso
      unfold wfRegularButtonB at hwb
      rw [hcid] at hwb
      simp at hwb
    · have hbids : buttonIds (b :: rest) = id :: buttonIds rest := by
        simp [buttonIds, hcid]
      rw [hbids] at hnd hdisj
      have hbtn : NonCompositeComponent.check_compatibility (.button b) ⟨ids, bc, 0⟩ =
          (.ok (), ⟨id :: ids, bc + 1, 0⟩) :=
        check_button_ok hwb hcid (hdisj id (by simp))
          (by simp only [List.length_cons] at hcnt; omega)
      rw [List.map_cons, foldChecks_cons_ok _ hbtn]
      obtain ⟨ids2, heq, hiff⟩ := ih (id :: ids) (bc + 1)
        (fun b2 h2 => hwf b2 (by simp [h2]))
        (List.nodup_cons.mp hnd).2
        (fun i hi => by
          intro hmem2
          rcases List.mem_cons.mp hmem2 with h1 | h2
          · exact (List.nodup_cons.mp hnd).1 (h1 ▸ hi)
          · exact hdisj i (List.mem_cons_of_mem _ hi) h2)
        (by simp only [List.length_cons] at hcnt; omega)
      refine ⟨ids2, ?_, ?_⟩
      · have harith : bc + (b :: rest).length = bc + 1 + rest.length := by
          simp only [List.length_cons]; omega
        rw [harith, heq]
      · intro i
        rw [hbids, hiff i]
        simp only [List.mem_cons]
        tauto

theorem fold_button_rows_ok (rss : List (List Button)) (ids : List String) (bc : Nat)
    (hwf : ∀ bs ∈ rss, (∀ b ∈ bs, wfRegularButtonB b = true) ∧ bs.length ≤ 5)
    (hnd : (rowsIds rss).Nodup)
    (hdisj : ∀ i ∈ rowsIds rss, i ∉ ids) :
    ∃ ids2 bc2, foldChecks ActionRow.check_compatibility
        (rss.map (fun bs => ⟨bs.map NonCompositeComponent.button⟩)) (.ok (), ⟨ids, bc, 0⟩)
      = (.ok (), ⟨ids2, bc2, 0⟩) := by
  induction rss generalizing ids bc with
  | nil => exact ⟨ids, bc, by simp [foldChecks]⟩
  | cons bs rest ih =>
    have hrow := hwf bs (by simp)
    rw [rowsIds_cons] at hnd hdisj
    have hndr := List.nodup_append.mp hnd
    obtain ⟨ids1, hfold1, hiff1⟩ := fold_buttons_ok bs ids 0 hrow.1 hndr.1
      (fun i hi => hdisj i (List.mem_append_left _ hi))
      (by simpa using hrow.2)
    have hrowchk : ActionRow.check_compatibility ⟨bs.map NonCompositeComponent.button⟩
        ⟨ids, bc, 0⟩ = (.ok (), ⟨ids1, 0 + bs.length, 0⟩) := by
      rw [actionRow_check_mk, register_action_row_mk]
      exact hfold1
    rw [List.map_cons, foldChecks_cons_ok _ hrowchk]
    exact ih ids1 (0 + bs.length) (fun bs2 h2 => hwf bs2 (by simp [h2])) hndr.2.1
      (fun i hi => by
        intro hmem2
        rcases (hiff1 i).mp hmem2 with h1 | h2
        · exact hndr.2.2 h1 hi
        · exact hdisj i (List.mem_append_right _ hi) h2)

/-!
### The claims
-/

/-- C1: two interactive components (regular buttons or select menus) that
carry the same custom id and pass their own local checks make validation
fail with the duplicate-custom-id error, both when they sit in the same
action row and when they sit in different action rows. -/
theorem duplicate_custom_id_rejected (x y : NonCompositeComponent) (id : String)
    (hwx : wfInteractiveB x = true) (hwy : wfInteractiveB y = true)
    (hx : compIdOf x = some id) (hy : compIdOf y = some id) :
    (Message.check_compatibility (mkComponentsMessage [⟨[x, y]⟩])
      MessageContext.new).1 = .error (dupMsg id) ∧
    (Message.check_compatibility (mkComponentsMessage [⟨[x]⟩, ⟨[y]⟩])
      MessageContext.new).1 = .error (dupMsg id) := by
  have hnew : MessageContext.new.register_action_row = (⟨[], 0, 0⟩ : MessageContext) := rfl
  have hx1 : ∃ c1 : MessageContext,
      NonCompositeComponent.check_compatibility x ⟨[], 0, 0⟩ = (.ok (), c1) ∧
      c1.custom_ids = [id] := by
    rcases x with b | m
    · simp only [wfInteractiveB] at hwx
      simp only [compIdOf] at hx
      exact ⟨⟨[id], 0 + 1, 0⟩, check_button_ok hwx hx (by simp) (by omega), rfl⟩
    · simp only [wfInteractiveB] at hwx
      simp only [compIdOf] at hx
      exact ⟨⟨[id], 0, 1⟩, check_select_menu_ok hwx hx (by simp), rfl⟩
  have hy_dup : ∀ ctx : MessageContext, id ∈ ctx.custom_ids →
      NonCompositeComponent.check_compatibility y ctx = (.error (dupMsg id), ctx) := by
    rcases y with b | m
    · simp only [wfInteractiveB] at hwy
      simp only [compIdOf] at hy
      exact fun ctx h => check_button_dup hwy hy h
    · simp only [compIdOf] at hy
      exact fun ctx h => check_select_menu_dup hy h
  obtain ⟨c1, hxeq, hc1⟩ := hx1
  constructor
  · have hrow : ActionRow.check_compatibility ⟨[x, y]⟩ MessageContext.new =
        (.error (dupMsg id), c1) := by
      rw [actionRow_check_mk, hnew, foldChecks_cons_ok _ hxeq, foldChecks_singleton]
      exact hy_dup c1 (by rw [hc1]; simp)
    rw [message_check_rows _ _ (by simp), foldChecks_singleton, hrow]
  · have hrow1 : ActionRow.check_compatibility ⟨[x]⟩ MessageContext.new =
        (.ok (), c1) := by
      rw [actionRow_check_mk, hnew, foldChecks_singleton]
      exact hxeq
    have hrow2 : ActionRow.check_compatibility ⟨[y]⟩ c1 =
        (.error (dupMsg id), c1.register_action_row) := by
      rw [actionRow_check_mk, foldChecks_singleton]
      exact hy_dup c1.register_action_row (by rw [register_action_row_ids, hc1]; simp)
    rw [message_check_rows _ _ (by simp), foldChecks_cons_ok _ hrow1,
      foldChecks_singleton, hrow2]

theorem duplicate_custom_id_rejected_witness :
    wfInteractiveB (.button (mkRegularButton "dup")) = true ∧
    wfInteractiveB (.selectMenu (mkSelectMenu "dup")) = true ∧
    compIdOf (.button (mkRegularButton "dup")) = some "dup" ∧
    compIdOf (.selectMenu (mkSelectMenu "dup")) = some "dup" ∧
    ((Message.check_compatibility
        (mkComponentsMessage [⟨[.button (mkRegularButton "dup"),
          .selectMenu (mkSelectMenu "dup")]⟩]) MessageContext.new).1 =
      .error (dupMsg "dup") ∧
    (Message.check_compatibility
        (mkComponentsMessage [⟨[.button (mkRegularButton "dup")]⟩,
          ⟨[.selectMenu (mkSelectMenu "dup")]⟩]) MessageContext.new).1 =
      .error (dupMsg "dup")) := by
  refine ⟨by decide, by decide, by decide, by decide, ?_⟩
  exact duplicate_custom_id_rejected (.button (mkRegularButton "dup"))
    (.selectMenu (mkSelectMenu "dup")) "dup" (by decide) (by decide) (by decide) (by decide)

/-- C4: button count limits are per action row, not per message: a message
of five rows, each holding exactly five regular buttons that pass their
local checks and carry pairwise distinct custom ids, validates with a fresh
context. -/
theorem five_rows_of_five_buttons_validate (rss : List (List Button))
    (hlen : rss.length = 5)
    (hrows : ∀ bs ∈ rss, bs.length = 5 ∧ ∀ b ∈ bs, wfRegularButtonB b = true)
    (hnd : (rowsIds rss).Nodup) :
    (Message.check_compatibility
      (mkComponentsMessage (rss.map (fun bs => ⟨bs.map NonCompositeComponent.button⟩)))
      MessageContext.new).1 = .ok () := by
  rw [message_check_rows _ _ (by simp [hlen])]
  obtain ⟨ids2, bc2, heq⟩ := fold_button_rows_ok rss [] 0
    (fun bs h => ⟨(hrows bs h).2, le_of_eq (hrows bs h).1⟩) hnd (by simp)
  rw [show MessageContext.new = (⟨[], 0, 0⟩ : MessageContext) from rfl, heq]

theorem five_rows_of_five_buttons_validate_witness :
    fiveByFiveRows.length = 5 ∧
    (∀ bs ∈ fiveByFiveRows, bs.length = 5 ∧ ∀ b ∈ bs, wfRegularButtonB b = true) ∧
    (rowsIds fiveByFiveRows).Nodup ∧
    (Message.check_compatibility
      (mkComponentsMessage
        (fiveByFiveRows.map (fun bs => ⟨bs.map NonCompositeComponent.button⟩)))
      MessageContext.new).1 = .ok () := by
  refine ⟨by decide, by decide, by decide, ?_⟩
  exact five_rows_of_five_buttons_validate fiveByFiveRows (by decide) (by decide) (by decide)

/-- C3: `register_action_row` is claimed to reset both per-row counters and
to leave the registered custom ids unchanged.  The code resets only the
button counter (it assigns it zero twice); the select-menu counter keeps its
previous value, as the evaluation at a context with select-menu count 1
shows.  The custom-id set is indeed left unchanged. -/
theorem register_action_row_keeps_select_menu_count :
    (∀ (ids : List String) (bc smc : Nat),
      MessageContext.register_action_row ⟨ids, bc, smc⟩ = ⟨ids, 0, smc⟩) ∧
    (MessageContext.register_action_row ⟨["x"], 3, 1⟩).select_menu_count_in_action_row = 1 ∧
    (MessageContext.register_action_row ⟨["x"], 3, 1⟩).select_menu_count_in_action_row ≠ 0 := by
  refine ⟨fun ids bc smc => rfl, rfl, by decide⟩

/-- C7: the claim says a select option with label and value present fails
when the value exceeds 100 characters.  The source's length table checks the
label twice (the second entry is labelled "Value" but reads `self.label`)
and never checks the value, so an option with a 1-character label and a
101-character value passes `check_compatibility`. -/
theorem select_option_value_length_never_checked :
    SelectOption.value_max_len < rustLen longValue ∧
    (SelectOption.check_compatibility
      { label := some "a", value := some longValue, description := none,
        emoji := none, default := none } MessageContext.new).1 = .ok () := by
  constructor
  · decide
  · decide

/-- C10: `Embed::field` on an embed holding exactly 25 fields panics (here:
returns `none`); below 25 it appends the field; hence starting from
`Embed::new` the field count never exceeds 25. -/
theorem embed_field_25_cap :
    (∀ (e : Embed) (n v : String) (i : Bool),
      e.fields.length = 25 → e.field n v i = none) ∧
    (∀ (e : Embed) (n v : String) (i : Bool),
      e.fields.length < 25 →
      e.field n v i = some { e with fields := e.fields ++ [⟨n, v, i⟩] }) ∧
    (∀ (e e2 : Embed) (n v : String) (i : Bool),
      e.fields.length ≤ 25 → e.field n v i = some e2 → e2.fields.length ≤ 25) ∧
    Embed.new.fields.length ≤ 25 := by
  refine ⟨fun e n v i h => ?_, fun e n v i h => ?_, fun e e2 n v i h heq => ?_, by decide⟩
  · simp [Embed.field, h]
  · simp [Embed.field, Nat.ne_of_lt h]
  · unfold Embed.field at heq
    by_cases h25 : e.fields.length = 25
    · simp [h25] at heq
    · simp [h25] at heq
      subst heq
      simp
      omega

theorem embed_field_25_cap_witness :
    embedWith25Fields.fields.length = 25 ∧
    embedWith25Fields.field "a" "b" true = none ∧
    Embed.new.field "a" "b" true =
      some { Embed.new with fields := [⟨"a", "b", true⟩] } := by
  refine ⟨by decide, embed_field_25_cap.1 embedWith25Fields "a" "b" true (by decide), ?_⟩
  have h := embed_field_25_cap.2.1 Embed.new "a" "b" true (by decide)
  simpa [Embed.new] using h

/-- C9: in `register_button` and `register_select_menu` the checks run in
the order uniqueness, per-row count, cross-kind conflict: a duplicate id
yields the duplicate error whatever the counters hold, and with a fresh id
an exceeded count yields the count error whatever the other counter holds. -/
theorem register_check_order (ctx : MessageContext) (id : String) :
    (id ∈ ctx.custom_ids →
      (ctx.register_button id).1 = .error (dupMsg id) ∧
      (ctx.register_select_menu id).1 = .error (dupMsg id)) ∧
    (id ∉ ctx.custom_ids →
      ActionRow.max_button_count ≤ ctx.button_count_in_action_row →
      (ctx.register_button id).1 =
        .error ("Button count for action row exceeded maximum (" ++
          toString ActionRow.max_button_count ++ ")")) ∧
    (id ∉ ctx.custom_ids →
      ActionRow.max_select_menu_count ≤ ctx.select_menu_count_in_action_row →
      (ctx.register_select_menu id).1 =
        .error ("Select menu count for action row exceeded maximum (" ++
          toString ActionRow.max_select_menu_count ++ ")")) := by
  refine ⟨fun hmem => ?_, fun hmem hcnt => ?_, fun hmem hcnt => ?_⟩
  · constructor <;>
      simp [MessageContext.register_button, MessageContext.register_select_menu,
        MessageContext.register_custom_id, hmem]
  · simp [MessageContext.register_button, MessageContext.register_custom_id, hmem, hcnt]
  · simp [MessageContext.register_select_menu, MessageContext.register_custom_id, hmem, hcnt]

theorem register_check_order_witness :
    ("y" ∈ (⟨["y"], 5, 1⟩ : MessageContext).custom_ids ∧
      ((⟨["y"], 5, 1⟩ : MessageContext).register_button "y").1 = .error (dupMsg "y") ∧
      ((⟨["y"], 5, 1⟩ : MessageContext).register_select_menu "y").1 = .error (dupMsg "y")) ∧
    (((⟨[], 5, 1⟩ : MessageContext).register_button "z").1 =
      .error ("Button count for action row exceeded maximum (" ++
        toString ActionRow.max_button_count ++ ")")) ∧
    (((⟨[], 5, 1⟩ : MessageContext).register_select_menu "z").1 =
      .error ("Select menu count for action row exceeded maximum (" ++
        toString ActionRow.max_select_menu_count ++ ")")) := by
  refine ⟨⟨by decide, (register_check_order ⟨["y"], 5, 1⟩ "y").1 (by decide)⟩, ?_, ?_⟩
  · exact (register_check_order ⟨[], 5, 1⟩ "z").2.1 (by decide) (by decide)
  · exact (register_check_order ⟨[], 5, 1⟩ "z").2.2 (by decide) (by decide)

/-- C8: the canonical `register_custom_id` fails with the duplicate error on
an id already in the set, fails with the length error when the id's length
lies outside the custom-id interval, and inserts the id on success. -/
theorem register_custom_id_canonical_spec (ctx : MessageContext) (id : String) :
    (id ∈ ctx.custom_ids →
      ctx.register_custom_id_canonical id = (.error "DuplicateCustomId", ctx)) ∧
    (id ∉ ctx.custom_ids → customIdInterval.contains id.length = false →
      ctx.register_custom_id_canonical id = (.error "LengthExceeded", ctx)) ∧
    (id ∉ ctx.custom_ids → customIdInterval.contains id.length = true →
      ctx.register_custom_id_canonical id =
        (.ok (), { ctx with custom_ids := id :: ctx.custom_ids })) := by
  refine ⟨fun hmem => ?_, fun hmem hlen => ?_, fun hmem hlen => ?_⟩ <;>
    simp [MessageContext.register_custom_id_canonical, hmem, *]

/-- C2: under the canonical revision, an action row with zero components
fails with EmptyRow, and so does any message whose first action row is such
a row (and whose row count is within bounds, so that the row-count check
does not fire first). -/
theorem empty_action_row_fails_canonical (row : ActionRow)
    (hrow : row.components = []) :
    (∀ ctx, (row.check_compatibility_canonical ctx).1 = .error "EmptyRow") ∧
    (∀ (msg : Message) (rest : List ActionRow), msg.action_rows = row :: rest →
      msg.action_rows.length ≤ 5 →
      ∀ ctx, (msg.check_compatibility_canonical ctx).1 = .error "EmptyRow") := by
  have hr : ∀ ctx, row.check_compatibility_canonical ctx =
      (.error "EmptyRow", ctx.register_action_row_canonical) := by
    intro ctx
    simp [ActionRow.check_compatibility_canonical, hrow]
  refine ⟨fun ctx => by rw [hr], fun msg rest hrows hlen ctx => ?_⟩
  unfold Message.check_compatibility_canonical
  rw [if_neg]
  · rcases hfold : foldChecks ActionRow.check_compatibility_canonical msg.action_rows
        (.ok (), ctx) with ⟨r, c⟩
    have hrerr : r = .error "EmptyRow" := by
      have h2 := foldChecks_cons_err rest (hr ctx)
      rw [← hrows] at h2
      rw [hfold] at h2
      exact h2
    rcases hfold2 : foldChecks Embed.check_compatibility_canonical msg.embeds
        (.ok (), c) with ⟨r2, c2⟩
    simp only [hfold, hfold2]
    rw [foldChecks_stub_embeds] at hfold2
    cases hfold2
    simp [hrerr, resAnd]
  · have hc : rowCountInterval.contains msg.action_rows.length = true := by
      simp only [Interval.contains, rowCountInterval, Bool.and_eq_true, decide_eq_true_eq]
      omega
    simp [hc]

theorem empty_action_row_fails_canonical_witness :
    ((⟨[]⟩ : ActionRow).components = []) ∧
    ((ActionRow.check_compatibility_canonical ⟨[]⟩ MessageContext.new).1 =
      .error "EmptyRow") ∧
    ((Message.check_compatibility_canonical (mkComponentsMessage [⟨[]⟩])
      MessageContext.new).1 = .error "EmptyRow") := by
  refine ⟨rfl, (empty_action_row_fails_canonical ⟨[]⟩ rfl).1 MessageContext.new, ?_⟩
  exact (empty_action_row_fails_canonical ⟨[]⟩ rfl).2
    (mkComponentsMessage [⟨[]⟩]) [] rfl (by decide) MessageContext.new

/-- C5: under the canonical revision, a select menu whose `min_values` and
`max_values` are both present with min > max fails with InvertedRange, even
when each lies inside its own interval — provided the earlier steps pass:
the custom id is present and registers successfully and the option count is
inside its interval. -/
theorem inverted_min_max_fails_canonical (m : SelectMenu) (ctx : MessageContext)
    (id : String) (vmin vmax : Nat)
    (hid : m.custom_id = some id)
    (hreg : (ctx.register_select_menu_canonical id).1 = .ok ())
    (hopt : optionCountInterval.contains m.options.length = true)
    (hmin : m.min_values = some vmin) (hmax : m.max_values = some vmax)
    (hminI : minValuesInterval.contains vmin = true)
    (hmaxI : maxValuesInterval.contains vmax = true)
    (hlt : vmax < vmin) :
    (m.check_compatibility_canonical ctx).1 = .error "InvertedRange" := by
  rcases h : ctx.register_select_menu_canonical id with ⟨r, c⟩
  rw [h] at hreg
  simp only at hreg
  cases r with
  | error e => exact absurd hreg (by simp)
  | ok u =>
    cases u
    simp [SelectMenu.check_compatibility_canonical, hid, h, hopt, hmin, hmax,
      hminI, hmaxI, hlt]

theorem inverted_min_max_fails_canonical_witness :
    invertedMenu.min_values = some 3 ∧ invertedMenu.max_values = some 2 ∧
    minValuesInterval.contains 3 = true ∧ maxValuesInterval.contains 2 = true ∧
    (invertedMenu.check_compatibility_canonical MessageContext.new).1 =
      .error "InvertedRange" := by
  refine ⟨rfl, rfl, by decide, by decide, ?_⟩
  exact inverted_min_max_fails_canonical invertedMenu MessageContext.new "m" 3 2
    rfl (by decide) (by decide) rfl rfl (by decide) (by decide) (by decide)

/-- C6, counterexample: a message whose single action row passes validation
but whose embed has 26 fields with empty names is accepted both by the
canonical revision's checker (whose embed validator is the unimplemented
stub) and by the first revision's checker (which never looks at embeds),
refuting the claim that such a message fails validation. -/
theorem embed_violations_accepted :
    25 < badEmbed.fields.length ∧
    (∃ f ∈ badEmbed.fields, f.name = "") ∧
    (Message.check_compatibility_canonical msgWithBadEmbed MessageContext.new).1 = .ok () ∧
    (Message.check_compatibility msgWithBadEmbed MessageContext.new).1 = .ok () := by
  refine ⟨by decide, ⟨⟨"", "", false⟩, by decide, rfl⟩, by decide, by decide⟩

/-- C6, amended: the canonical `Message::check_compatibility` does fold over
the embeds after all rows, but the embed validator is a stub accepting every
embed, so the overall result never depends on the embeds; the first
revision's checker does not examine embeds at all. -/
theorem message_check_ignores_embeds :
    (∀ (msg : Message) (es : List Embed) (ctx : MessageContext),
      (Message.check_compatibility_canonical { msg with embeds := es } ctx).1 =
      (Message.check_compatibility_canonical { msg with embeds := [] } ctx).1) ∧
    (∀ (e : Embed) (ctx : MessageContext),
      Embed.check_compatibility_canonical e ctx = (.ok (), ctx)) ∧
    (∀ (msg : Message) (es : List Embed) (ctx : MessageContext),
      Message.check_compatibility { msg with embeds := es } ctx =
      Message.check_compatibility { msg with embeds := [] } ctx) := by
  refine ⟨fun msg es ctx => ?_, fun e ctx => rfl, fun msg es ctx => rfl⟩
  unfold Message.check_compatibility_canonical
  simp only
  rcases hfold : foldChecks ActionRow.check_compatibility_canonical msg.action_rows
      (.ok (), ctx) with ⟨r, c⟩
  simp [hfold, foldChecks_stub_embeds]

theorem register_custom_id_canonical_spec_witness :
    ((⟨["a"], 0, 0⟩ : MessageContext).register_custom_id_canonical "a" =
      (.error "DuplicateCustomId", ⟨["a"], 0, 0⟩)) ∧
    (MessageContext.new.register_custom_id_canonical longValue =
      (.error "LengthExceeded", MessageContext.new)) ∧
    (MessageContext.new.register_custom_id_canonical "a" =
      (.ok (), ⟨["a"], 0, 0⟩)) := by
  refine ⟨(register_custom_id_canonical_spec ⟨["a"], 0, 0⟩ "a").1 (by decide), ?_, ?_⟩
  · exact (register_custom_id_canonical_spec MessageContext.new longValue).2.1
      (by decide) (by decide)
  · exact (register_custom_id_canonical_spec MessageContext.new "a").2.2
      (by decide) (by decide)

end Webhook
